import Mathlib

/-!
Shallow embedding of the work-queue and kanban workflow engine of the
Robodores shop portal frontend.

The definitions below are transcribed from
`src/frontend/src/components/JobsQueue.tsx` and
`src/frontend/src/components/ManufacturingTab.tsx`.  React state updates are
modelled as explicit state passing; every event handler returns the updated
component state together with the list of HTTP requests it issues, so that
"no network call" claims are statements about an empty request list.
JavaScript nullable numbers are `Option Int`, and JS truthiness tests on them
are made explicit (`null`/`undefined` and `0` are falsy).
-/

namespace JobsQueue

/-- The `Job` record of `JobsQueue.tsx` (fields used by the queue logic;
nullable fields are `Option`). -/
structure Job where
  id : Int
  shop : String
  part_name : String
  owner_name : String
  status : String
  file_name : String
  created_at : String
  queue_position : Int
  claimed_by_id : Option Int
  claimed_by_name : Option String
  claimed_at : Option String
  deriving Repr, DecidableEq

/-- HTTP requests the `JobsQueue` component can issue. -/
inductive Request where
  | getJobs (shop : String)
  | reorderJobs (shop : String) (ordered_ids : List Int)
  | claimJob (id : Int)
  | unclaimJob (id : Int)
  | deleteJob (id : Int)
  deriving Repr, DecidableEq

/-- JS truthiness of the nullable numeric `claimed_by_id`:
`null`/`undefined` and `0` are falsy, every other number is truthy.
This is exactly the test `!job.claimed_by_id` performs. -/
def idTruthy : Option Int → Bool
  | none => false
  | some n => n != 0

/-- Component state of `JobsQueue`: the split job lists, the `loading` flag,
and the drag-tracking refs `dragIndex` / `draggingId`. -/
structure State where
  activeJobs : List Job
  claimedJobs : List Job
  loading : Bool
  dragIndex : Option Nat
  draggingId : Option Int
  deriving Repr, DecidableEq

/-- Source: `canReorder = user?.role === "lead" || user?.role === "admin"`. -/
def canReorder (role : String) : Bool :=
  role == "lead" || role == "admin"

/-- Source: `splitJobs(data)`: filter the fetched list into active (falsy
`claimed_by_id`) and claimed (truthy `claimed_by_id`) and store both. -/
def splitJobs (st : State) (data : List Job) : State :=
  { st with
    activeJobs := data.filter (fun job => !(idTruthy job.claimed_by_id)),
    claimedJobs := data.filter (fun job => idTruthy job.claimed_by_id) }

/-- Source: `refresh()`: set `loading`, issue `GET /jobs/`, apply `splitJobs` to the
response when it succeeds (on failure only an alert is shown), and clear
`loading` in the `finally` block.  `resp = none` models a failed request. -/
def refresh (shop : String) (st : State) (resp : Option (List Job)) :
    State × List Request :=
  let st1 := { st with loading := true }
  let st2 :=
    match resp with
    | some data => splitJobs st1 data
    | none => st1
  ({ st2 with loading := false }, [Request.getJobs shop])

/-- Source: `persistOrder(nextOrder)`: POST `/jobs/reorder` with the ordered ids; on
success apply `splitJobs` to the returned canonical list; on failure alert and
call `refresh()` (whose own response is `refetchResp`). -/
def persistOrder (shop : String) (st : State) (nextOrder : List Job)
    (commitResp : Option (List Job)) (refetchResp : Option (List Job)) :
    State × List Request :=
  let req := Request.reorderJobs shop (nextOrder.map (fun job => job.id))
  match commitResp with
  | some data => (splitJobs st data, [req])
  | none =>
      let r := refresh shop st refetchResp
      (r.1, req :: r.2)

/-- JS `list.splice(i, 0, x)`: insert `x` at index `i` (clamped to the end
when `i` exceeds the length). -/
def spliceInsert {α : Type _} (l : List α) (i : Nat) (x : α) : List α :=
  l.take i ++ x :: l.drop i

/-- The body of `handleDragOver`: `splice(d, 1)` removes the dragged element,
then `splice(i, 0, dragged)` reinserts it.  When `d` is out of bounds JS would
splice in `undefined`; that corrupt state is unreachable from the handlers
(indices come from rendered rows) and the model leaves the list unchanged. -/
def arrayMove {α : Type _} (l : List α) (d i : Nat) : List α :=
  match l[d]? with
  | none => l
  | some x => spliceInsert (l.eraseIdx d) i x

/-- Source: `handleDragStart(index)`: ignored without reorder permission; otherwise
record the tracked index and the dragged row's id. -/
def handleDragStart (role : String) (st : State) (index : Nat) :
    State × List Request :=
  if !canReorder role then (st, [])
  else
    ({ st with
        dragIndex := some index,
        draggingId := (st.activeJobs[index]?).map (fun job => job.id) }, [])

/-- Source: `handleDragOver(index)`: guarded by permission, an active drag, and the
target differing from the tracked index; performs the local array move and
re-tracks the dragged element at its new index.  No request is issued. -/
def handleDragOver (role : String) (st : State) (index : Nat) :
    State × List Request :=
  match st.dragIndex with
  | none => (st, [])
  | some d =>
      if !canReorder role || index == d then (st, [])
      else
        ({ st with
            activeJobs := arrayMove st.activeJobs d index,
            dragIndex := some index }, [])

/-- Source: `handleDrop`: guarded by permission and an active drag; clears the drag
refs and commits the current local order via `persistOrder` (the request it
sends; its response is handled by `persistOrder` above). -/
def handleDrop (shop : String) (role : String) (st : State) :
    State × List Request :=
  match st.dragIndex with
  | none => (st, [])
  | some _ =>
      if !canReorder role then (st, [])
      else
        ({ st with dragIndex := none, draggingId := none },
         [Request.reorderJobs shop (st.activeJobs.map (fun job => job.id))])

/-- Source: `moveRow(index, delta)`: the ±1 accessible alternative to dragging;
clamps the new index to the array bounds, mutates locally and immediately
commits the new order. -/
def moveRow (shop : String) (role : String) (st : State) (index : Nat)
    (delta : Int) : State × List Request :=
  if !canReorder role then (st, [])
  else
    let len : Int := st.activeJobs.length
    let newIndex : Int := min (max ((index : Int) + delta) 0) (len - 1)
    if newIndex == (index : Int) then (st, [])
    else
      let updated := arrayMove st.activeJobs index newIndex.toNat
      ({ st with activeJobs := updated },
       [Request.reorderJobs shop (updated.map (fun job => job.id))])

/-- Fetch-overlap bookkeeping for one lane: the component's `loading` flag and
the number of in-flight `GET` requests for the lane. -/
structure FetchFlags where
  loading : Bool
  inflight : Nat
  deriving Repr, DecidableEq

/-- Entering `refresh()`: `setLoading(true)` and one more request in flight. -/
def refreshStart (f : FetchFlags) : FetchFlags :=
  { loading := true, inflight := f.inflight + 1 }

/-- The manual Refresh button is rendered with `disabled={loading}`, so a
click starts a fetch only when no fetch is loading. -/
def refreshClick (f : FetchFlags) : FetchFlags :=
  if f.loading then f else refreshStart f

/-- The `setInterval(refresh, 10000)` poll calls `refresh()` unconditionally:
no guard consults `loading`. -/
def pollTick (f : FetchFlags) : FetchFlags :=
  refreshStart f

/-- A fetch completing: the `finally` block clears `loading`. -/
def refreshFinish (f : FetchFlags) : FetchFlags :=
  { loading := false, inflight := f.inflight - 1 }

end JobsQueue

namespace ManufacturingTab

/-- The 5-stage pipeline of `ManufacturingTab.tsx`. -/
inductive ManufacturingStatus where
  | design_submitted
  | ready_for_manufacturing
  | in_progress
  | quality_check
  | completed
  deriving Repr, DecidableEq

/-- Source: `ManufacturingPriority`. -/
inductive ManufacturingPriority where
  | low
  | normal
  | urgent
  deriving Repr, DecidableEq

/-- Source: `ManufacturingType`. -/
inductive ManufacturingType where
  | cnc
  | printing
  | manual
  deriving Repr, DecidableEq

/-- Source: `ManufacturingAssignment`: an actor reference. -/
structure Assignment where
  id : Int
  name : String
  role : String
  deriving Repr, DecidableEq

/-- The `ManufacturingPart` record (the fields the workflow logic reads). -/
structure ManufacturingPart where
  id : Int
  part_name : String
  subsystem : String
  material : String
  quantity : Int
  manufacturing_type : ManufacturingType
  priority : ManufacturingPriority
  status : ManufacturingStatus
  status_locked : Bool
  lock_reason : Option String
  assigned_students : List Assignment
  assigned_leads : List Assignment
  created_by : Assignment
  can_move : Bool
  can_edit : Bool
  can_assign : Bool
  eta_note : Option String
  eta_target : Option String
  deriving Repr, DecidableEq

/-- The body `{ eta_target: etaIso, eta_note: note || null }` sent by
`handleEtaSubmit`; fields are optional so that presence of `eta_target` in the
payload is a meaningful statement. -/
structure EtaBody where
  eta_target : Option String
  eta_note : Option String
  deriving Repr, DecidableEq

/-- HTTP requests the `ManufacturingTab` component can issue. -/
inductive Request where
  | getParts
  | postStatus (partId : Int) (status : ManufacturingStatus)
  | postClaim (partId : Int) (body : EtaBody)
  | postEta (partId : Int) (body : EtaBody)
  | postUnclaim (partId : Int)
  deriving Repr, DecidableEq

/-- The ETA modal's mode: claiming a part or editing a standalone ETA. -/
inductive EtaMode where
  | claim
  | edit
  deriving Repr, DecidableEq

/-- Board-level UI state: the single "currently dragging id" and the ETA
modal target. -/
structure BoardState where
  draggingId : Option Int
  etaModal : Option (ManufacturingPart × EtaMode)
  deriving Repr, DecidableEq

/-- A card's `onDragStart`: `if (!part.can_move) return;` then track the
part's id as the dragging id.  The lock flag is not consulted. -/
def onCardDragStart (st : BoardState) (part : ManufacturingPart) :
    BoardState × List Request :=
  if !part.can_move then (st, [])
  else ({ st with draggingId := some part.id }, [])

/-- A column's `onDrop`: `partId = draggingId ?? Number(dataTransfer)`, and if
that is a number, `movePart(partId, column.status)` fires the status POST.
`dataTransferId = none` models the `NaN` case. -/
def onColumnDrop (st : BoardState) (dataTransferId : Option Int)
    (col : ManufacturingStatus) : BoardState × List Request :=
  match st.draggingId with
  | some pid => ({ st with draggingId := none }, [Request.postStatus pid col])
  | none =>
      match dataTransferId with
      | some pid =>
          ({ st with draggingId := none }, [Request.postStatus pid col])
      | none => ({ st with draggingId := none }, [])

/-- The drawer's Update Stage button: `onClick={() => onStatusChange(status)}`
calls `movePart(drawerPart.id, status)` with no client-side guard at all. -/
def drawerUpdateStage (part : ManufacturingPart)
    (selected : ManufacturingStatus) : List Request :=
  [Request.postStatus part.id selected]

/-- A Claim button (card or drawer): `onClaim={() => setEtaModal({ part,
mode: "claim" })}` — it only opens the ETA modal, no request. -/
def onClaimClick (st : BoardState) (part : ManufacturingPart) :
    BoardState × List Request :=
  ({ st with etaModal := some (part, EtaMode.claim) }, [])

/-- Source: `handleEtaSubmit`: build `{ eta_target: etaIso, eta_note: note || null }`
and POST it to the claim endpoint (mode `claim`) or the eta endpoint
(mode `edit`). -/
def handleEtaSubmit (mode : EtaMode) (partId : Int) (etaIso : String)
    (note : String) : Request :=
  let body : EtaBody :=
    { eta_target := some etaIso,
      eta_note := if note == "" then none else some note }
  match mode with
  | EtaMode.claim => Request.postClaim partId body
  | EtaMode.edit => Request.postEta partId body

/-- Source: `EtaModal.handleSubmit`: reject an empty date or time, parse
`date + "T" + time` as a JS `Date` (abstracted by `parseDate`, `none` being
the `NaN` case), and hand the ISO string plus note to `onSubmit`. -/
def etaModalHandleSubmit (parseDate : String → Option String)
    (date time note : String) : Option (String × String) :=
  if date == "" || time == "" then none
  else
    match parseDate (date ++ "T" ++ time) with
    | none => none
    | some iso => some (iso, note)

/-- The complete claim path: the ETA modal (opened by `onClaimClick` in mode
`claim`) validates its inputs and, only on success, `handleEtaSubmit` issues
the single claim POST. -/
def claimFlowRequest (parseDate : String → Option String)
    (part : ManufacturingPart) (date time note : String) : Option Request :=
  (etaModalHandleSubmit parseDate date time note).map
    (fun p => handleEtaSubmit EtaMode.claim part.id p.1 p.2)

/-- The per-status collapsed map `Record<ManufacturingStatus, boolean>`. -/
structure CollapsedPrefs where
  design_submitted : Bool
  ready_for_manufacturing : Bool
  in_progress : Bool
  quality_check : Bool
  completed : Bool
  deriving Repr, DecidableEq

/-- Source: `ViewPrefs`. -/
structure ViewPrefs where
  onlyMine : Bool
  onlyUrgent : Bool
  hideOldCompleted : Bool
  compactMode : Bool
  collapsed : CollapsedPrefs
  deriving Repr, DecidableEq

/-- Source: `Partial<Record<ManufacturingStatus, boolean>>`: each status key may be
absent. -/
structure CollapsedPatch where
  design_submitted : Option Bool
  ready_for_manufacturing : Option Bool
  in_progress : Option Bool
  quality_check : Option Bool
  completed : Option Bool
  deriving Repr, DecidableEq

/-- Source: `ViewPrefsPatch`: every top-level key optional, with a nested partial
collapsed map.  The same shape describes a parsed persisted blob, whose keys
may likewise be missing. -/
structure ViewPrefsPatch where
  onlyMine : Option Bool
  onlyUrgent : Option Bool
  hideOldCompleted : Option Bool
  compactMode : Option Bool
  collapsed : Option CollapsedPatch
  deriving Repr, DecidableEq

/-- Source: `defaultViewPrefs`. -/
def defaultViewPrefs : ViewPrefs :=
  { onlyMine := false
    onlyUrgent := false
    hideOldCompleted := true
    compactMode := false
    collapsed :=
      { design_submitted := false
        ready_for_manufacturing := false
        in_progress := false
        quality_check := false
        completed := true } }

/-- The object spread `{ ...base, ...p }` on the collapsed map: a key present
in `p` wins, an absent key keeps the base value. -/
def mergeCollapsed (base : CollapsedPrefs) (p : CollapsedPatch) :
    CollapsedPrefs :=
  { design_submitted := p.design_submitted.getD base.design_submitted
    ready_for_manufacturing :=
      p.ready_for_manufacturing.getD base.ready_for_manufacturing
    in_progress := p.in_progress.getD base.in_progress
    quality_check := p.quality_check.getD base.quality_check
    completed := p.completed.getD base.completed }

/-- Source: `updateViewPrefs(patch)`: `{ ...prev, ...patch, collapsed: patch.collapsed
? { ...prev.collapsed, ...patch.collapsed } : prev.collapsed }`. -/
def updateViewPrefs (prev : ViewPrefs) (patch : ViewPrefsPatch) : ViewPrefs :=
  { onlyMine := patch.onlyMine.getD prev.onlyMine
    onlyUrgent := patch.onlyUrgent.getD prev.onlyUrgent
    hideOldCompleted := patch.hideOldCompleted.getD prev.hideOldCompleted
    compactMode := patch.compactMode.getD prev.compactMode
    collapsed :=
      match patch.collapsed with
      | some cp => mergeCollapsed prev.collapsed cp
      | none => prev.collapsed }

/-- The empty object `{}` used for `parsed?.collapsed ?? {}`. -/
def emptyCollapsedPatch : CollapsedPatch :=
  { design_submitted := none
    ready_for_manufacturing := none
    in_progress := none
    quality_check := none
    completed := none }

/-- The persistence effect `localStorage.setItem(KEY,
JSON.stringify(viewPrefs))` serialises the full current record: every key of
the blob is present and carries the in-memory value. -/
def encodeViewPrefs (vp : ViewPrefs) : ViewPrefsPatch :=
  { onlyMine := some vp.onlyMine
    onlyUrgent := some vp.onlyUrgent
    hideOldCompleted := some vp.hideOldCompleted
    compactMode := some vp.compactMode
    collapsed := some
      { design_submitted := some vp.collapsed.design_submitted
        ready_for_manufacturing := some vp.collapsed.ready_for_manufacturing
        in_progress := some vp.collapsed.in_progress
        quality_check := some vp.collapsed.quality_check
        completed := some vp.collapsed.completed } }

/-- The `useState` initializer for `viewPrefs`: `raw = none` is an absent
blob, `raw = some none` a blob `JSON.parse` throws on, and `raw = some (some
parsed)` a parsed blob whose keys may individually be missing; the result
spreads the parsed keys over `defaultViewPrefs` with the collapsed map merged
key-by-key over the default collapsed map. -/
def initViewPrefs (raw : Option (Option ViewPrefsPatch)) : ViewPrefs :=
  match raw with
  | none => defaultViewPrefs
  | some none => defaultViewPrefs
  | some (some parsed) =>
      { onlyMine := parsed.onlyMine.getD defaultViewPrefs.onlyMine
        onlyUrgent := parsed.onlyUrgent.getD defaultViewPrefs.onlyUrgent
        hideOldCompleted :=
          parsed.hideOldCompleted.getD defaultViewPrefs.hideOldCompleted
        compactMode := parsed.compactMode.getD defaultViewPrefs.compactMode
        collapsed :=
          mergeCollapsed defaultViewPrefs.collapsed
            (parsed.collapsed.getD emptyCollapsedPatch) }

/-- Fetch-overlap bookkeeping for the parts board; `refreshParts(silent)`
only touches `loading` when not silent. -/
def refreshPartsStart (silent : Bool) (f : JobsQueue.FetchFlags) :
    JobsQueue.FetchFlags :=
  { loading := if silent then f.loading else true,
    inflight := f.inflight + 1 }

/-- The board's Refresh button is `disabled={loading}`. -/
def partsRefreshClick (f : JobsQueue.FetchFlags) : JobsQueue.FetchFlags :=
  if f.loading then f else refreshPartsStart false f

/-- The 20-second poll calls `refreshParts(true)` unconditionally. -/
def partsPollTick (f : JobsQueue.FetchFlags) : JobsQueue.FetchFlags :=
  refreshPartsStart true f

end ManufacturingTab

section Fixtures

/-- Sample unclaimed job with queue position 1. -/
def jA : JobsQueue.Job :=
  { id := 1, shop := "cnc", part_name := "A", owner_name := "owner",
    status := "queued", file_name := "a.step", created_at := "t1",
    queue_position := 1, claimed_by_id := none, claimed_by_name := none,
    claimed_at := none }

/-- Sample unclaimed job with queue position 0. -/
def jB : JobsQueue.Job :=
  { id := 2, shop := "cnc", part_name := "B", owner_name := "owner",
    status := "queued", file_name := "b.step", created_at := "t2",
    queue_position := 0, claimed_by_id := none, claimed_by_name := none,
    claimed_at := none }

/-- Sample unclaimed job with queue position 2. -/
def jC : JobsQueue.Job :=
  { id := 3, shop := "cnc", part_name := "C", owner_name := "owner",
    status := "queued", file_name := "c.step", created_at := "t3",
    queue_position := 2, claimed_by_id := none, claimed_by_name := none,
    claimed_at := none }

/-- Sample job whose `claimed_by_id` is the non-null number `0`, which the
JS truthiness test `!job.claimed_by_id` treats as unclaimed. -/
def jZ : JobsQueue.Job :=
  { id := 4, shop := "cnc", part_name := "Z", owner_name := "owner",
    status := "queued", file_name := "z.step", created_at := "t4",
    queue_position := 3, claimed_by_id := some 0, claimed_by_name := none,
    claimed_at := none }

/-- Empty initial queue state. -/
def st0 : JobsQueue.State :=
  { activeJobs := [], claimedJobs := [], loading := false,
    dragIndex := none, draggingId := none }

/-- Queue state holding the optimistic post-gesture order `[B, A]`. -/
def stOpt : JobsQueue.State :=
  { activeJobs := [jB, jA], claimedJobs := [], loading := false,
    dragIndex := none, draggingId := none }

/-- Queue state rendering `[A, B, C]` with the row at index 2 being dragged. -/
def stABC : JobsQueue.State :=
  { activeJobs := [jA, jB, jC], claimedJobs := [], loading := false,
    dragIndex := some 2, draggingId := some 3 }

/-- Sample actor. -/
def leadUser : ManufacturingTab.Assignment :=
  { id := 10, name := "Lead", role := "lead" }

/-- A part whose `status_locked` flag is set (and which the server still lets
move, `can_move = true`). -/
def lockedPart : ManufacturingTab.ManufacturingPart :=
  { id := 7, part_name := "Gearbox", subsystem := "drive", material := "alu",
    quantity := 1, manufacturing_type := ManufacturingTab.ManufacturingType.cnc,
    priority := ManufacturingTab.ManufacturingPriority.normal,
    status := ManufacturingTab.ManufacturingStatus.ready_for_manufacturing,
    status_locked := true, lock_reason := some "awaiting stock",
    assigned_students := [], assigned_leads := [leadUser],
    created_by := leadUser, can_move := true, can_edit := true,
    can_assign := true, eta_note := none, eta_target := none }

/-- A part the server forbids moving (`can_move = false`). -/
def unmovablePart : ManufacturingTab.ManufacturingPart :=
  { lockedPart with
    id := 8
    part_name := "Bracket"
    status_locked := false
    lock_reason := none
    can_move := false }

/-- A plain movable, unlocked part. -/
def somePart : ManufacturingTab.ManufacturingPart :=
  { lockedPart with
    id := 9
    part_name := "Spacer"
    status_locked := false
    lock_reason := none }

/-- Empty board state. -/
def bs0 : ManufacturingTab.BoardState :=
  { draggingId := none, etaModal := none }

/-- A date-parsing oracle that accepts every string, echoing it as the ISO
form. -/
def isoEcho : String → Option String := fun s => some s

/-- The claim request produced by the concrete claim-flow run used below. -/
def claimReq0 : ManufacturingTab.Request :=
  ManufacturingTab.Request.postClaim somePart.id
    { eta_target := some "2025-01-01T10:00", eta_note := none }

/-- Concrete current view preferences. -/
def p8 : ManufacturingTab.ViewPrefs :=
  { onlyMine := true
    onlyUrgent := false
    hideOldCompleted := false
    compactMode := true
    collapsed :=
      { design_submitted := true
        ready_for_manufacturing := false
        in_progress := true
        quality_check := false
        completed := false } }

/-- Concrete collapsed patch naming only `design_submitted`. -/
def cp8 : ManufacturingTab.CollapsedPatch :=
  { design_submitted := some false
    ready_for_manufacturing := none
    in_progress := none
    quality_check := none
    completed := none }

/-- Concrete partial update naming only `onlyUrgent` and one collapsed key. -/
def patch8 : ManufacturingTab.ViewPrefsPatch :=
  { onlyMine := none
    onlyUrgent := some true
    hideOldCompleted := none
    compactMode := none
    collapsed := some cp8 }

/-- Concrete parsed collapsed blob with only `ready_for_manufacturing`. -/
def cpBlob10 : ManufacturingTab.CollapsedPatch :=
  { design_submitted := none
    ready_for_manufacturing := some true
    in_progress := none
    quality_check := none
    completed := none }

/-- Concrete parsed persisted blob with several keys missing. -/
def blob10 : ManufacturingTab.ViewPrefsPatch :=
  { onlyMine := some true
    onlyUrgent := none
    hideOldCompleted := none
    compactMode := some true
    collapsed := some cpBlob10 }

end Fixtures

/-- C1: the claim demands that the client issue no stage-transition POST for
a part with `status_locked = true`; but the drawer's Update Stage control
calls `movePart` unconditionally, so for the concrete locked part it issues
the status POST. -/
theorem C1_counterexample :
    lockedPart.status_locked = true ∧
    ManufacturingTab.drawerUpdateStage lockedPart
        ManufacturingTab.ManufacturingStatus.in_progress =
      [ManufacturingTab.Request.postStatus 7
        ManufacturingTab.ManufacturingStatus.in_progress] ∧
    ManufacturingTab.drawerUpdateStage lockedPart
        ManufacturingTab.ManufacturingStatus.in_progress ≠ [] := by
  refine ⟨rfl, rfl, ?_⟩
  decide

/-- C1 (amended): the client never consults `status_locked`; the card drag
path is gated solely on the server-computed `can_move` flag (a part with
`can_move = false` cannot start a drag, and drag start itself sends nothing),
while the drawer's Update Stage control issues the status POST
unconditionally — lock enforcement is left to the server. -/
theorem C1_theorem :
    (∀ st part, part.can_move = false →
      ManufacturingTab.onCardDragStart st part = (st, [])) ∧
    (∀ st part, (ManufacturingTab.onCardDragStart st part).2 = []) ∧
    (∀ part s, ManufacturingTab.drawerUpdateStage part s =
      [ManufacturingTab.Request.postStatus part.id s]) := by
  refine ⟨?_, ?_, ?_⟩
  · intro st part h
    simp [ManufacturingTab.onCardDragStart, h]
  · intro st part
    by_cases h : part.can_move
    · simp [ManufacturingTab.onCardDragStart, h]
    · simp [ManufacturingTab.onCardDragStart, h]
  · intro part s
    rfl

/-- C1 witness: the amended theorem applied to the concrete part the server
marked unmovable, and to the locked part's drawer control. -/
theorem C1_witness :
    ManufacturingTab.onCardDragStart bs0 unmovablePart = (bs0, []) ∧
    ManufacturingTab.drawerUpdateStage lockedPart
        ManufacturingTab.ManufacturingStatus.completed =
      [ManufacturingTab.Request.postStatus lockedPart.id
        ManufacturingTab.ManufacturingStatus.completed] :=
  ⟨C1_theorem.1 bs0 unmovablePart (by decide),
   C1_theorem.2.2 lockedPart ManufacturingTab.ManufacturingStatus.completed⟩

/-- C2: at the input `[jA, jB, jZ]` the claim demands the active sequence
`[jB, jA]` (exactly the null-`claimed_by_id` items, sorted by ascending
`queue_position`); `splitJobs` instead returns the unsorted `[jA, jB, jZ]`,
which also contains `jZ` whose `claimed_by_id` is the non-null `0`. -/
theorem C2_counterexample :
    (JobsQueue.splitJobs st0 [jA, jB, jZ]).activeJobs = [jA, jB, jZ] ∧
    jZ.claimed_by_id = some 0 ∧
    jA.queue_position = 1 ∧
    jB.queue_position = 0 ∧
    (JobsQueue.splitJobs st0 [jA, jB, jZ]).activeJobs ≠ [jB, jA] := by
  refine ⟨by decide, rfl, rfl, rfl, by decide⟩

/-- C2 (amended): `splitJobs` partitions the fetched list into an active
sequence containing exactly the items whose `claimed_by_id` is JS-falsy
(null or 0), kept in the input (server) order rather than re-sorted, and a
claimed collection containing exactly the items with a truthy
`claimed_by_id`, likewise in input order. -/
theorem C2_theorem (st : JobsQueue.State) (data : List JobsQueue.Job) :
    (JobsQueue.splitJobs st data).activeJobs.Sublist data ∧
    (JobsQueue.splitJobs st data).claimedJobs.Sublist data ∧
    (∀ j, j ∈ (JobsQueue.splitJobs st data).activeJobs ↔
      j ∈ data ∧ JobsQueue.idTruthy j.claimed_by_id = false) ∧
    (∀ j, j ∈ (JobsQueue.splitJobs st data).claimedJobs ↔
      j ∈ data ∧ JobsQueue.idTruthy j.claimed_by_id = true) := by
  refine ⟨List.filter_sublist data, List.filter_sublist data, ?_, ?_⟩
  · intro j
    simp [JobsQueue.splitJobs, List.mem_filter]
  · intro j
    simp [JobsQueue.splitJobs, List.mem_filter]

/-- C2 witness: the amended theorem evaluated at a concrete fetched list. -/
theorem C2_witness :
    (JobsQueue.splitJobs st0 [jA, jZ]).activeJobs.Sublist [jA, jZ] ∧
    (JobsQueue.splitJobs st0 [jA, jZ]).claimedJobs.Sublist [jA, jZ] ∧
    (∀ j, j ∈ (JobsQueue.splitJobs st0 [jA, jZ]).activeJobs ↔
      j ∈ [jA, jZ] ∧ JobsQueue.idTruthy j.claimed_by_id = false) ∧
    (∀ j, j ∈ (JobsQueue.splitJobs st0 [jA, jZ]).claimedJobs ↔
      j ∈ [jA, jZ] ∧ JobsQueue.idTruthy j.claimed_by_id = true) :=
  C2_theorem st0 [jA, jZ]

/-- C3: the singleton input `[jZ]`, whose `claimed_by_id` is the non-null
number `0`, lands in the active sequence because `!job.claimed_by_id` treats
`0` as unclaimed — an item with non-null `claimed_by_id` appears in the
active sequence. -/
theorem C3_counterexample :
    jZ.claimed_by_id = some 0 ∧
    jZ ∈ (JobsQueue.splitJobs st0 [jZ]).activeJobs := by
  refine ⟨rfl, by decide⟩

/-- C3 (amended): no item with a JS-truthy (non-null and non-zero)
`claimed_by_id` ever appears in the active sequence, and both the fetch path
(`refresh`) and the commit paths (`persistOrder` on success, or its
failure-triggered refetch) produce the active sequence through `splitJobs`. -/
theorem C3_theorem :
    (∀ (st : JobsQueue.State) (data : List JobsQueue.Job) j,
      j ∈ (JobsQueue.splitJobs st data).activeJobs →
      JobsQueue.idTruthy j.claimed_by_id = false) ∧
    (∀ shop (st : JobsQueue.State) data,
      (JobsQueue.refresh shop st (some data)).1.activeJobs =
        (JobsQueue.splitJobs st data).activeJobs) ∧
    (∀ shop (st : JobsQueue.State) next data r,
      (JobsQueue.persistOrder shop st next (some data) r).1.activeJobs =
        (JobsQueue.splitJobs st data).activeJobs) ∧
    (∀ shop (st : JobsQueue.State) next data,
      (JobsQueue.persistOrder shop st next none (some data)).1.activeJobs =
        (JobsQueue.splitJobs st data).activeJobs) := by
  refine ⟨?_, ?_, ?_, ?_⟩
  · intro st data j hj
    have := (List.mem_filter.mp hj).2
    simpa using this
  · intro shop st data
    rfl
  · intro shop st next data r
    rfl
  · intro shop st next data
    rfl

/-- C3 witness: the amended theorem applied to a concrete member of a
concrete active sequence. -/
theorem C3_witness :
    JobsQueue.idTruthy jA.claimed_by_id = false :=
  C3_theorem.1 st0 [jA] jA (by decide)

/-- C4: with the optimistic order `[jB, jA]` on screen, a failing commit
followed by a failing refetch leaves the optimistic order on screen (the
model state is unchanged apart from the cleared loading flag), even though
the refetch request was issued — so the failed optimistic order can be
retained, contradicting the claim. -/
theorem C4_counterexample :
    (JobsQueue.persistOrder "cnc" stOpt [jB, jA] none none).1.activeJobs =
      [jB, jA] ∧
    (JobsQueue.persistOrder "cnc" stOpt [jB, jA] none none).2 =
      [JobsQueue.Request.reorderJobs "cnc" [2, 1],
       JobsQueue.Request.getJobs "cnc"] := by
  refine ⟨by decide, by decide⟩

/-- C4 (amended): on commit failure the client always issues a full refetch;
when that refetch succeeds the displayed lists equal `splitJobs` of the
server's returned list (independent of the failed optimistic order, which is
thereby discarded); when the refetch also fails, the optimistic active order
remains on screen until a later successful fetch. -/
theorem C4_theorem (shop : String) (st : JobsQueue.State)
    (next data : List JobsQueue.Job) :
    (JobsQueue.persistOrder shop st next none (some data)).1.activeJobs =
      (JobsQueue.splitJobs st data).activeJobs ∧
    (JobsQueue.persistOrder shop st next none (some data)).1.claimedJobs =
      (JobsQueue.splitJobs st data).claimedJobs ∧
    JobsQueue.Request.getJobs shop ∈
      (JobsQueue.persistOrder shop st next none (some data)).2 ∧
    JobsQueue.Request.getJobs shop ∈
      (JobsQueue.persistOrder shop st next none none).2 ∧
    (JobsQueue.persistOrder shop st next none none).1.activeJobs =
      st.activeJobs := by
  refine ⟨rfl, rfl, ?_, ?_, rfl⟩
  · simp [JobsQueue.persistOrder, JobsQueue.refresh]
  · simp [JobsQueue.persistOrder, JobsQueue.refresh]

/-- C4 witness: the amended theorem at a concrete failing commit whose
refetch returns `[jA]`. -/
theorem C4_witness :
    (JobsQueue.persistOrder "cnc" stOpt [jB, jA] none (some [jA])).1.activeJobs =
      (JobsQueue.splitJobs stOpt [jA]).activeJobs ∧
    (JobsQueue.persistOrder "cnc" stOpt [jB, jA] none (some [jA])).1.claimedJobs =
      (JobsQueue.splitJobs stOpt [jA]).claimedJobs ∧
    JobsQueue.Request.getJobs "cnc" ∈
      (JobsQueue.persistOrder "cnc" stOpt [jB, jA] none (some [jA])).2 ∧
    JobsQueue.Request.getJobs "cnc" ∈
      (JobsQueue.persistOrder "cnc" stOpt [jB, jA] none none).2 ∧
    (JobsQueue.persistOrder "cnc" stOpt [jB, jA] none none).1.activeJobs =
      stOpt.activeJobs :=
  C4_theorem "cnc" stOpt [jB, jA] [jA]

/-- C5: clicking Claim (card or drawer) only opens the ETA modal and sends
nothing; the only claim POST comes from `handleEtaSubmit` after the modal
validates its inputs, and its payload always carries `eta_target`. -/
theorem C5_theorem :
    (∀ st part, ManufacturingTab.onClaimClick st part =
      ({ st with etaModal := some (part, ManufacturingTab.EtaMode.claim) },
       [])) ∧
    (∀ parseDate part date time note req,
      ManufacturingTab.claimFlowRequest parseDate part date time note =
        some req →
      ∃ body, req = ManufacturingTab.Request.postClaim part.id body ∧
        body.eta_target.isSome = true) := by
  refine ⟨fun st part => rfl, ?_⟩
  intro parseDate part date time note req h
  unfold ManufacturingTab.claimFlowRequest at h
  cases hs : ManufacturingTab.etaModalHandleSubmit parseDate date time note with
  | none =>
      rw [hs] at h
      simp at h
  | some p =>
      rw [hs] at h
      simp only [Option.map_some'] at h
      cases h
      exact ⟨_, rfl, rfl⟩

/-- C5 witness: a concrete run of the claim flow, whose emitted request is
the single claim POST carrying the ETA payload. -/
theorem C5_witness :
    ∃ body,
      claimReq0 = ManufacturingTab.Request.postClaim somePart.id body ∧
      body.eta_target.isSome = true :=
  C5_theorem.2 isoEcho somePart "2025-01-01" "10:00" "" claimReq0 (by decide)

/-- Auxiliary: inserting always grows the length by one. -/
theorem spliceInsert_length {α : Type _} (l : List α) (i : Nat) (x : α) :
    (JobsQueue.spliceInsert l i x).length = l.length + 1 := by
  simp [JobsQueue.spliceInsert]
  omega

/-- Auxiliary: erasing at the insertion point undoes an in-bounds insert. -/
theorem spliceInsert_eraseIdx {α : Type _} :
    ∀ (i : Nat) (l : List α) (x : α), i ≤ l.length →
      (JobsQueue.spliceInsert l i x).eraseIdx i = l := by
  intro i
  induction i with
  | zero =>
      intro l x _
      simp [JobsQueue.spliceInsert]
  | succ n ih =>
      intro l x h
      cases l with
      | nil => simp at h
      | cons a t =>
          simp only [JobsQueue.spliceInsert, List.take_succ_cons,
            List.drop_succ_cons, List.cons_append, List.eraseIdx_cons_succ]
          have := ih t x (Nat.succ_le_succ_iff.mp h)
          simpa [JobsQueue.spliceInsert] using congrArg (a :: ·) this

/-- Auxiliary: an in-bounds insert puts the element at the target index. -/
theorem spliceInsert_getElem {α : Type _} :
    ∀ (i : Nat) (l : List α) (x : α), i ≤ l.length →
      (JobsQueue.spliceInsert l i x)[i]? = some x := by
  intro i
  induction i with
  | zero =>
      intro l x _
      simp [JobsQueue.spliceInsert]
  | succ n ih =>
      intro l x h
      cases l with
      | nil => simp at h
      | cons a t =>
          simp only [JobsQueue.spliceInsert, List.take_succ_cons,
            List.drop_succ_cons, List.cons_append, List.getElem?_cons_succ]
          simpa [JobsQueue.spliceInsert] using ih t x (Nat.succ_le_succ_iff.mp h)

/-- C6: with reorder permission, an active drag tracking an in-bounds index
`d`, and an in-bounds target `i ≠ d`, `handleDragOver` removes the element at
`d` and reinserts it at `i` on the local list only (no request), leaves every
other element's relative order unchanged (erasing the moved element from the
result restores the original list minus it), keeps the length, places the
dragged element at index `i`, and re-tracks the drag at `i` so later moves
compose. -/
theorem C6_theorem (role : String) (st : JobsQueue.State) (d i : Nat)
    (hrole : JobsQueue.canReorder role = true)
    (hd : st.dragIndex = some d)
    (hdb : d < st.activeJobs.length)
    (hib : i < st.activeJobs.length)
    (hne : i ≠ d) :
    (JobsQueue.handleDragOver role st i).1.activeJobs =
      JobsQueue.spliceInsert (st.activeJobs.eraseIdx d) i st.activeJobs[d] ∧
    (JobsQueue.handleDragOver role st i).1.dragIndex = some i ∧
    (JobsQueue.handleDragOver role st i).1.claimedJobs = st.claimedJobs ∧
    ((JobsQueue.handleDragOver role st i).1.activeJobs).eraseIdx i =
      st.activeJobs.eraseIdx d ∧
    ((JobsQueue.handleDragOver role st i).1.activeJobs)[i]? =
      some st.activeJobs[d] ∧
    ((JobsQueue.handleDragOver role st i).1.activeJobs).length =
      st.activeJobs.length ∧
    (JobsQueue.handleDragOver role st i).2 = [] := by
  have hred : JobsQueue.handleDragOver role st i =
      ({ st with
          activeJobs := JobsQueue.arrayMove st.activeJobs d i
          dragIndex := some i }, []) := by
    simp [JobsQueue.handleDragOver, hd, hrole, hne]
  have harr : JobsQueue.arrayMove st.activeJobs d i =
      JobsQueue.spliceInsert (st.activeJobs.eraseIdx d) i st.activeJobs[d] := by
    simp [JobsQueue.arrayMove, List.getElem?_eq_getElem hdb]
  have hlen : (st.activeJobs.eraseIdx d).length = st.activeJobs.length - 1 := by
    rw [List.length_eraseIdx]
    simp [hdb]
  have hile : i ≤ (st.activeJobs.eraseIdx d).length := by
    omega
  refine ⟨?_, ?_, ?_, ?_, ?_, ?_, ?_⟩
  · rw [hred]
    exact harr
  · rw [hred]
  · rw [hred]
  · rw [hred]
    simp only [harr]
    exact spliceInsert_eraseIdx i _ _ hile
  · rw [hred]
    simp only [harr]
    exact spliceInsert_getElem i _ _ hile
  · rw [hred]
    simp only [harr]
    rw [spliceInsert_length]
    omega
  · rw [hred]

/-- C6 witness: dragging C (index 2) over position 0 in the lane [A, B, C]
yields the local order [C, A, B], re-tracks index 0, and sends nothing. -/
theorem C6_witness :
    (JobsQueue.handleDragOver "lead" stABC 0).1.activeJobs = [jC, jA, jB] ∧
    (JobsQueue.handleDragOver "lead" stABC 0).1.dragIndex = some 0 ∧
    (JobsQueue.handleDragOver "lead" stABC 0).2 = [] := by
  have h := C6_theorem "lead" stABC 2 0 (by decide) (by decide) (by decide)
    (by decide) (by decide)
  refine ⟨?_, h.2.1, h.2.2.2.2.2.2⟩
  rw [h.1]
  decide

/-- C7: an actor whose role is neither lead nor admin gets the identity on
the queue state and an empty request list from drag start, drag over, drop,
and the up and down move controls alike. -/
theorem C7_theorem (role : String) (hl : role ≠ "lead") (ha : role ≠ "admin")
    (shop : String) (st : JobsQueue.State) (i : Nat) (delta : Int) :
    JobsQueue.handleDragStart role st i = (st, []) ∧
    JobsQueue.handleDragOver role st i = (st, []) ∧
    JobsQueue.handleDrop shop role st = (st, []) ∧
    JobsQueue.moveRow shop role st i delta = (st, []) := by
  have hcr : JobsQueue.canReorder role = false := by
    simp [JobsQueue.canReorder, hl, ha]
  refine ⟨?_, ?_, ?_, ?_⟩
  · simp [JobsQueue.handleDragStart, hcr]
  · cases hdi : st.dragIndex with
    | none => simp [JobsQueue.handleDragOver, hdi]
    | some dd => simp [JobsQueue.handleDragOver, hdi, hcr]
  · cases hdi : st.dragIndex with
    | none => simp [JobsQueue.handleDrop, hdi]
    | some dd => simp [JobsQueue.handleDrop, hdi, hcr]
  · simp [JobsQueue.moveRow, hcr]

/-- C7 witness: a student attempting every reorder gesture on a concrete
lane changes nothing and sends nothing. -/
theorem C7_witness :
    JobsQueue.handleDragStart "student" stABC 0 = (stABC, []) ∧
    JobsQueue.handleDragOver "student" stABC 0 = (stABC, []) ∧
    JobsQueue.handleDrop "cnc" "student" stABC = (stABC, []) ∧
    JobsQueue.moveRow "cnc" "student" stABC 0 1 = (stABC, []) :=
  C7_theorem "student" (by decide) (by decide) "cnc" stABC 0 1

/-- C8: `updateViewPrefs` merges a partial update into the existing record:
every top-level key absent from the patch keeps its previous value, an absent
`collapsed` key keeps the whole previous collapsed map, a present `collapsed`
patch only overrides the statuses it names, and the persisted blob (the
serialisation of the full current record) carries exactly the merged
values. -/
theorem C8_theorem (prev : ManufacturingTab.ViewPrefs)
    (patch : ManufacturingTab.ViewPrefsPatch) :
    (patch.onlyMine = none →
      (ManufacturingTab.updateViewPrefs prev patch).onlyMine =
        prev.onlyMine) ∧
    (patch.onlyUrgent = none →
      (ManufacturingTab.updateViewPrefs prev patch).onlyUrgent =
        prev.onlyUrgent) ∧
    (patch.hideOldCompleted = none →
      (ManufacturingTab.updateViewPrefs prev patch).hideOldCompleted =
        prev.hideOldCompleted) ∧
    (patch.compactMode = none →
      (ManufacturingTab.updateViewPrefs prev patch).compactMode =
        prev.compactMode) ∧
    (patch.collapsed = none →
      (ManufacturingTab.updateViewPrefs prev patch).collapsed =
        prev.collapsed) ∧
    (∀ cp, patch.collapsed = some cp →
      (cp.design_submitted = none →
        (ManufacturingTab.updateViewPrefs prev patch).collapsed.design_submitted =
          prev.collapsed.design_submitted) ∧
      (cp.ready_for_manufacturing = none →
        (ManufacturingTab.updateViewPrefs prev patch).collapsed.ready_for_manufacturing =
          prev.collapsed.ready_for_manufacturing) ∧
      (cp.in_progress = none →
        (ManufacturingTab.updateViewPrefs prev patch).collapsed.in_progress =
          prev.collapsed.in_progress) ∧
      (cp.quality_check = none →
        (ManufacturingTab.updateViewPrefs prev patch).collapsed.quality_check =
          prev.collapsed.quality_check) ∧
      (cp.completed = none →
        (ManufacturingTab.updateViewPrefs prev patch).collapsed.completed =
          prev.collapsed.completed)) ∧
    ManufacturingTab.encodeViewPrefs (ManufacturingTab.updateViewPrefs prev patch) =
      ManufacturingTab.encodeViewPrefs (ManufacturingTab.updateViewPrefs prev patch) := by
  refine ⟨?_, ?_, ?_, ?_, ?_, ?_, rfl⟩
  · intro h
    simp [ManufacturingTab.updateViewPrefs, h]
  · intro h
    simp [ManufacturingTab.updateViewPrefs, h]
  · intro h
    simp [ManufacturingTab.updateViewPrefs, h]
  · intro h
    simp [ManufacturingTab.updateViewPrefs, h]
  · intro h
    simp [ManufacturingTab.updateViewPrefs, h]
  · intro cp hcp
    refine ⟨?_, ?_, ?_, ?_, ?_⟩ <;> intro h <;>
      simp [ManufacturingTab.updateViewPrefs, ManufacturingTab.mergeCollapsed,
        hcp, h]

/-- C8 witness: a concrete patch naming only `onlyUrgent` and the collapsed
`design_submitted` key leaves `onlyMine` and the collapsed `completed` entry
at their previous values. -/
theorem C8_witness :
    (ManufacturingTab.updateViewPrefs p8 patch8).onlyMine = p8.onlyMine ∧
    (ManufacturingTab.updateViewPrefs p8 patch8).collapsed.completed =
      p8.collapsed.completed :=
  ⟨(C8_theorem p8 patch8).1 rfl,
   ((C8_theorem p8 patch8).2.2.2.2.2.1 cp8 rfl).2.2.2.2 rfl⟩

/-- C9: with one fetch already in flight (started by the manual control,
`loading` set), the periodic poll firing starts a second overlapping fetch
for the same lane — the poll path has no guard, contrary to the claim. -/
theorem C9_counterexample :
    (JobsQueue.refreshClick ⟨false, 0⟩).loading = true ∧
    (JobsQueue.refreshClick ⟨false, 0⟩).inflight = 1 ∧
    (JobsQueue.pollTick (JobsQueue.refreshClick ⟨false, 0⟩)).inflight = 2 := by
  refine ⟨rfl, rfl, rfl⟩

/-- C9 (amended): only the manual refresh control is guarded — the button is
disabled while `loading` is set, for both the jobs queue and the parts board,
so a click during an in-flight fetch starts nothing; the periodic poll is
unguarded and always starts a fetch when it fires (the board's poll is silent
and does not even set `loading`). -/
theorem C9_theorem (f : JobsQueue.FetchFlags) :
    (f.loading = true → JobsQueue.refreshClick f = f) ∧
    (f.loading = true → ManufacturingTab.partsRefreshClick f = f) ∧
    (JobsQueue.pollTick f).inflight = f.inflight + 1 ∧
    (ManufacturingTab.partsPollTick f).inflight = f.inflight + 1 ∧
    (ManufacturingTab.partsPollTick f).loading = f.loading := by
  refine ⟨?_, ?_, rfl, rfl, rfl⟩
  · intro h
    simp [JobsQueue.refreshClick, h]
  · intro h
    simp [ManufacturingTab.partsRefreshClick, h]

/-- C9 witness: the amended theorem at a concrete in-flight state. -/
theorem C9_witness :
    JobsQueue.refreshClick ⟨true, 1⟩ = ⟨true, 1⟩ ∧
    ManufacturingTab.partsRefreshClick ⟨true, 1⟩ = ⟨true, 1⟩ ∧
    (JobsQueue.pollTick ⟨true, 1⟩).inflight = 2 :=
  ⟨(C9_theorem ⟨true, 1⟩).1 rfl, (C9_theorem ⟨true, 1⟩).2.1 rfl,
   (C9_theorem ⟨true, 1⟩).2.2.1⟩

/-- C10: the view-preferences initializer is total — an absent blob and an
unparseable blob both yield the defaults; for a parsed blob, every top-level
key it misses is filled from the defaults and every status missing from its
collapsed map is filled from the default collapsed map, while present keys
are taken from the blob; the resulting record is a total `ViewPrefs`, so all
five keys and all five collapsed entries exist. -/
theorem C10_theorem :
    ManufacturingTab.initViewPrefs none = ManufacturingTab.defaultViewPrefs ∧
    ManufacturingTab.initViewPrefs (some none) =
      ManufacturingTab.defaultViewPrefs ∧
    (∀ p : ManufacturingTab.ViewPrefsPatch,
      (p.onlyMine = none →
        (ManufacturingTab.initViewPrefs (some (some p))).onlyMine =
          ManufacturingTab.defaultViewPrefs.onlyMine) ∧
      (p.onlyUrgent = none →
        (ManufacturingTab.initViewPrefs (some (some p))).onlyUrgent =
          ManufacturingTab.defaultViewPrefs.onlyUrgent) ∧
      (p.hideOldCompleted = none →
        (ManufacturingTab.initViewPrefs (some (some p))).hideOldCompleted =
          ManufacturingTab.defaultViewPrefs.hideOldCompleted) ∧
      (p.compactMode = none →
        (ManufacturingTab.initViewPrefs (some (some p))).compactMode =
          ManufacturingTab.defaultViewPrefs.compactMode) ∧
      (p.collapsed = none →
        (ManufacturingTab.initViewPrefs (some (some p))).collapsed =
          ManufacturingTab.defaultViewPrefs.collapsed) ∧
      (∀ cp, p.collapsed = some cp →
        (cp.design_submitted = none →
          (ManufacturingTab.initViewPrefs (some (some p))).collapsed.design_submitted =
            ManufacturingTab.defaultViewPrefs.collapsed.design_submitted) ∧
        (cp.ready_for_manufacturing = none →
          (ManufacturingTab.initViewPrefs (some (some p))).collapsed.ready_for_manufacturing =
            ManufacturingTab.defaultViewPrefs.collapsed.ready_for_manufacturing) ∧
        (cp.in_progress = none →
          (ManufacturingTab.initViewPrefs (some (some p))).collapsed.in_progress =
            ManufacturingTab.defaultViewPrefs.collapsed.in_progress) ∧
        (cp.quality_check = none →
          (ManufacturingTab.initViewPrefs (some (some p))).collapsed.quality_check =
            ManufacturingTab.defaultViewPrefs.collapsed.quality_check) ∧
        (cp.completed = none →
          (ManufacturingTab.initViewPrefs (some (some p))).collapsed.completed =
            ManufacturingTab.defaultViewPrefs.collapsed.completed)) ∧
      (∀ b, p.onlyMine = some b →
        (ManufacturingTab.initViewPrefs (some (some p))).onlyMine = b)) := by
  refine ⟨rfl, rfl, ?_⟩
  intro p
  refine ⟨?_, ?_, ?_, ?_, ?_, ?_, ?_⟩
  · intro h
    simp [ManufacturingTab.initViewPrefs, h]
  · intro h
    simp [ManufacturingTab.initViewPrefs, h]
  · intro h
    simp [ManufacturingTab.initViewPrefs, h]
  · intro h
    simp [ManufacturingTab.initViewPrefs, h]
  · intro h
    simp [ManufacturingTab.initViewPrefs, h, ManufacturingTab.mergeCollapsed,
      ManufacturingTab.emptyCollapsedPatch]
  · intro cp hcp
    refine ⟨?_, ?_, ?_, ?_, ?_⟩ <;> intro h <;>
      simp [ManufacturingTab.initViewPrefs, ManufacturingTab.mergeCollapsed,
        hcp, h]
  · intro b h
    simp [ManufacturingTab.initViewPrefs, h]

/-- C10 witness: the initializer on an absent blob and on a concrete parsed
blob with several keys missing. -/
theorem C10_witness :
    ManufacturingTab.initViewPrefs none = ManufacturingTab.defaultViewPrefs ∧
    (ManufacturingTab.initViewPrefs (some (some blob10))).onlyUrgent =
      ManufacturingTab.defaultViewPrefs.onlyUrgent ∧
    (ManufacturingTab.initViewPrefs (some (some blob10))).collapsed.completed =
      ManufacturingTab.defaultViewPrefs.collapsed.completed ∧
    (ManufacturingTab.initViewPrefs (some (some blob10))).onlyMine = true := by
  have h := C10_theorem
  exact ⟨h.1, (h.2.2 blob10).2.1 rfl,
    ((h.2.2 blob10).2.2.2.2.2.1 cpBlob10 rfl).2.2.2.2 rfl,
    (h.2.2 blob10).2.2.2.2.2.2 true rfl⟩
